import Mathlib

/-!
Shallow embedding of `tensorflow_datasets/core/features/video_feature.py`
(the `Video` feature connector), covering `_ffmpeg_decode` and
`encode_example`.

Modelling conventions:
* Byte payloads (video file contents, frame file contents) are
  `List Nat`; captured stdout/stderr buffers are kept as `String`.
* The effectful Python code is embedded as pure functions that return,
  besides the Python-level result (`Except PyError _`), the list of
  resource/process events the call performed, in order.  The events are
  the calls to `tempfile.mkdtemp`, `tempfile.mktemp`, `subprocess.Popen`,
  `tf.gfile.Copy`, `os.unlink` and `shutil.rmtree`.
* The environment (`Env`) packages the ambient nondeterminism: the names
  the temp-file library hands out, the filesystem contents, and the
  behaviour of the external `ffmpeg` binary.  The behaviour of `ffmpeg`
  is a function of the video bytes it reads — from the file named by `-i`
  (`decodeFile`, receiving `none` when the path does not exist) or from
  its standard input (`decodePipe`) — returning either a spawn error
  (`Popen` raising) or a `RunResult`: exit code, captured stdout/stderr,
  and the directory listing it produced (in arbitrary enumeration order,
  as `os.listdir` returns it).
* Python `try/finally` semantics are reproduced where the source uses
  them: the `finally` block always runs, and an exception raised by the
  `finally` block replaces the in-flight exception.
-/

/-- Raw byte payloads. -/
abbrev Bytes := List Nat

/-- The Python exceptions the embedded code can raise.
`attributeError a` models `AttributeError` from accessing attribute `a`
on an object that lacks it; `notFoundError p` models
`tf.errors.NotFoundError` / `FileNotFoundError` for path `p`;
`valueError m` is `ValueError(m)`; `oserror m` models `OSError`
(e.g. `subprocess.Popen` failing to spawn). -/
inductive PyError where
  | valueError (msg : String)
  | attributeError (attr : String)
  | notFoundError (path : String)
  | oserror (msg : String)
deriving DecidableEq, Repr

/-- The caller-supplied value classified by `encode_example` /
`_ffmpeg_decode`: a 4-d uint8 array (payload kept opaque as `List Nat`),
a path string, a readable file object (its full contents), or any other
Python value (`other`), which has no `seek` attribute. -/
inductive PyVal where
  | ndarray (a : List Nat)
  | str (p : String)
  | fileObj (contents : Bytes)
  | other (tag : Nat)
deriving DecidableEq, Repr

/-- What one completed `ffmpeg` subprocess run produced: its exit code,
the captured stdout and stderr buffers, and the files it wrote into the
output directory — `(filename, contents)` pairs in the arbitrary order
`os.listdir` later enumerates them. -/
structure RunResult where
  retcode : Int
  stdout : String
  stderr : String
  files : List (String × Bytes)
deriving DecidableEq, Repr

/-- Resource and process events, recorded in the order the call performs
them. -/
inductive Event where
  | mkdtempE (dir : String)
  | mktempE (file : String)
  | popenE (argv : List String) (stdin : Option Bytes)
  | copyE (src dst : String)
  | unlinkE (path : String)
  | rmtreeE (dir : String)
deriving DecidableEq, Repr

/-- The constructor configuration of `Video` that `_ffmpeg_decode` and
`encode_example` read: `self._encoding_format`, `self._copy_locally`,
`self._extra_ffmpeg_args`.  (The rank-4 shape check happens in
`__init__` and is not consulted by the embedded methods.) -/
structure VideoConfig where
  encoding_format : String
  copy_locally : Bool
  extra_ffmpeg_args : List String
deriving DecidableEq, Repr

/-- The ambient environment of one call: the fresh names `mkdtemp` and
`mktemp` return, and the external decoder's behaviour as a function of
the bytes it reads (from the `-i` file, or from stdin). -/
structure Env where
  tempDir : String
  tempFile : String
  decodeFile : Option Bytes → Except PyError RunResult
  decodePipe : Bytes → Except PyError RunResult

/-- POSIX `os.path.isabs`: the path begins with a slash. -/
def osIsAbs (b : String) : Bool :=
  match b.data with
  | [] => false
  | c :: _ => c == '/'

/-- Python "path.endswith" applied to the separator: the last character
of the path is a slash. -/
def endsWithSlash (a : String) : Bool :=
  match a.data.getLast? with
  | some c => c == '/'
  | none => false

/-- POSIX `os.path.join` for two components. -/
def ospathJoin (a b : String) : String :=
  if osIsAbs b then b
  else if a = "" then a ++ b
  else if endsWithSlash a then a ++ b
  else a ++ "/" ++ b

/-- The `ValueError` message of `_ffmpeg_decode`: the text
"ffmpeg returned error code " followed by the return code, then
", command=" with the space-joined argument vector, then the captured
stdout and stderr each on its own labelled line. -/
def ffmpegErrorMsg (retcode : Int) (args : List String) (stdout stderr : String) : String :=
  "ffmpeg returned error code " ++
    (toString retcode ++
      (", command=" ++
        (String.intercalate " " args ++
          ("\nstdout=" ++ (stdout ++ ("\nstderr=" ++ (stderr ++ "\n")))))))

/-- Predicate: `m` contains `part` as a contiguous substring. -/
def strContains (m part : String) : Prop :=
  ∃ s t, m = s ++ (part ++ t)

/-- Embedding of "sorted(os.listdir(ffmpeg_dir))" over the listing:
sort the `(filename, contents)` pairs by filename, lexicographically
(Python string `<` and Lean `String` order both compare code points).
Insertion sort is, like Python's sort, a stable sort. -/
def sortByName (l : List (String × Bytes)) : List (String × Bytes) :=
  List.insertionSort (fun p q => p.1 ≤ q.1) l

/-- The frame-collection loop of `_ffmpeg_decode` (lines 127–131): read
each file of the output directory in sorted filename order and return
the contents in that order. -/
def collectFrames (listing : List (String × Bytes)) : List Bytes :=
  (sortByName listing).map Prod.snd

/-- The complete `ffmpeg_args` vector: the variant-specific head
(`args0`), then `self._extra_ffmpeg_args`, then the appended
`output_pattern = os.path.join(ffmpeg_dir, "%010d." + self._encoding_format)`. -/
def fullArgs (cfg : VideoConfig) (env : Env) (args0 : List String) : List String :=
  args0 ++ cfg.extra_ffmpeg_args ++ [ospathJoin env.tempDir ("%010d." ++ cfg.encoding_format)]

/-- Lines 109–133 of `_ffmpeg_decode`, common to the path and file-object
variants: create the temporary output directory, append the extra ffmpeg
args and the output pattern to the argument vector, and inside
`try … finally shutil.rmtree(ffmpeg_dir)`: run the subprocess
(`runRes` is its outcome — a spawn error, or a `RunResult`), raise
`ValueError` when the return code is nonzero, else collect the frames. -/
def decodeCore (cfg : VideoConfig) (env : Env) (args0 : List String)
    (stdin : Option Bytes) (runRes : Except PyError RunResult) :
    List Event × Except PyError (List Bytes) :=
  let ffmpeg_dir := env.tempDir
  let ffmpeg_args := fullArgs cfg env args0
  let body : List Event × Except PyError (List Bytes) :=
    match runRes with
    | Except.error e => ([Event.popenE ffmpeg_args stdin], Except.error e)
    | Except.ok r =>
      if r.retcode ≠ 0 then
        ([Event.popenE ffmpeg_args stdin],
         Except.error (PyError.valueError
           (ffmpegErrorMsg r.retcode ffmpeg_args r.stdout r.stderr)))
      else
        ([Event.popenE ffmpeg_args stdin], Except.ok (collectFrames r.files))
  (Event.mkdtempE ffmpeg_dir :: body.1 ++ [Event.rmtreeE ffmpeg_dir], body.2)

/-- Embedding of `Video._ffmpeg_decode(self, path_or_fobj)`, given the filesystem
contents `fs`.  A string argument is decoded as a path (`-i path`,
no stdin); any other argument is treated as a file object:
`path_or_fobj.seek(0)` raises `AttributeError` unless the value is a
file object, otherwise its contents are piped to stdin with source
`pipe:0`. -/
def _ffmpeg_decode (cfg : VideoConfig) (env : Env) (fs : String → Option Bytes)
    (path_or_fobj : PyVal) : List Event × Except PyError (List Bytes) :=
  match path_or_fobj with
  | PyVal.str p => decodeCore cfg env ["ffmpeg", "-i", p] none (env.decodeFile (fs p))
  | PyVal.fileObj c => decodeCore cfg env ["ffmpeg", "-i", "pipe:0"] (some c) (env.decodePipe c)
  | PyVal.ndarray _ => ([], Except.error (PyError.attributeError "seek"))
  | PyVal.other _ => ([], Except.error (PyError.attributeError "seek"))

/-- The value `encode_example` hands to `super().encode_example` (the
external `Sequence` container): either the untouched array, or the list
of decoded frame payloads. -/
inductive Encoded where
  | array (a : List Nat)
  | frames (fs : List Bytes)
deriving DecidableEq, Repr

/-- Embedding of `Video.encode_example(self, video_or_path_or_fobj)`.
An `np.ndarray` passes through unchanged.  A string with
`self._copy_locally` set is copied to `tempfile.mktemp()` (which creates
no file) inside `try: Copy; decode finally: os.unlink(tmp)`:
`tf.gfile.Copy` raises `NotFoundError` when the source is missing (and
then creates no destination file), and `os.unlink` raises
`NotFoundError` when its path does not exist, replacing — per Python
`finally` semantics — the in-flight exception.  Every other value goes
to `_ffmpeg_decode` directly. -/
def encode_example (cfg : VideoConfig) (env : Env) (fs : String → Option Bytes)
    (video_or_path_or_fobj : PyVal) : List Event × Except PyError Encoded :=
  match video_or_path_or_fobj with
  | PyVal.ndarray a => ([], Except.ok (Encoded.array a))
  | PyVal.str p =>
    if cfg.copy_locally then
      let tmp := env.tempFile
      match fs p with
      | none =>
        ([Event.mktempE tmp, Event.copyE p tmp, Event.unlinkE tmp],
         if (fs tmp).isSome then Except.error (PyError.notFoundError p)
         else Except.error (PyError.notFoundError tmp))
      | some b =>
        let fs2 := fun q => if q = tmp then some b else fs q
        let d := _ffmpeg_decode cfg env fs2 (PyVal.str tmp)
        (Event.mktempE tmp :: Event.copyE p tmp :: d.1 ++ [Event.unlinkE tmp],
         d.2.map Encoded.frames)
    else
      let d := _ffmpeg_decode cfg env fs (PyVal.str p)
      (d.1, d.2.map Encoded.frames)
  | PyVal.fileObj c =>
    let d := _ffmpeg_decode cfg env fs (PyVal.fileObj c)
    (d.1, d.2.map Encoded.frames)
  | PyVal.other t =>
    let d := _ffmpeg_decode cfg env fs (PyVal.other t)
    (d.1, d.2.map Encoded.frames)

/-- The argument vectors of the `Popen` events of a trace, in order. -/
def popenArgvs (tr : List Event) : List (List String) :=
  tr.filterMap (fun e =>
    match e with
    | Event.popenE a _ => some a
    | _ => none)

/-! ### Order instances for the sort-by-filename relation -/

instance : IsTotal (String × Bytes) (fun p q => p.1 ≤ q.1) :=
  ⟨fun a b => le_total a.1 b.1⟩

instance : IsTrans (String × Bytes) (fun p q => p.1 ≤ q.1) :=
  ⟨fun _ _ _ h h2 => le_trans h h2⟩

instance : IsAntisymm (String × Bytes) (fun p q => p.1 < q.1) :=
  ⟨fun _ _ h h2 => absurd (lt_trans h h2) (lt_irrefl _)⟩

/-! ### Helper lemmas -/

/-- The fixed frame-number template is not an absolute path, whatever the
encoding format is. -/
theorem osIsAbs_pattern (fmt : String) : osIsAbs ("%010d." ++ fmt) = false := by
  unfold osIsAbs
  rw [String.data_append]
  rfl

/-- Joining a nonempty directory with no trailing slash and the
frame template inserts exactly one separator. -/
theorem ospathJoin_pattern (a fmt : String) (h1 : a ≠ "") (h2 : endsWithSlash a = false) :
    ospathJoin a ("%010d." ++ fmt) = a ++ "/" ++ ("%010d." ++ fmt) := by
  simp [ospathJoin, osIsAbs_pattern, h1, h2]

/-- Every branch of `decodeCore` records exactly one `Popen`, with the
full argument vector. -/
theorem popenArgvs_decodeCore (cfg : VideoConfig) (env : Env) (args0 : List String)
    (stdin : Option Bytes) (rr : Except PyError RunResult) :
    popenArgvs (decodeCore cfg env args0 stdin rr).1 = [fullArgs cfg env args0] := by
  cases rr with
  | error e => simp [decodeCore, popenArgvs]
  | ok r =>
    by_cases h : r.retcode = 0 <;> simp [decodeCore, popenArgvs, h]

/-- Every branch of `decodeCore` both creates and removes the temporary
directory. -/
theorem decodeCore_trace_mem (cfg : VideoConfig) (env : Env) (args0 : List String)
    (stdin : Option Bytes) (rr : Except PyError RunResult) :
    Event.mkdtempE env.tempDir ∈ (decodeCore cfg env args0 stdin rr).1 ∧
    Event.rmtreeE env.tempDir ∈ (decodeCore cfg env args0 stdin rr).1 := by
  cases rr with
  | error e => simp [decodeCore]
  | ok r =>
    by_cases h : r.retcode = 0 <;> simp [decodeCore, h]

/-- Keyed sorted lists with distinct keys: being sorted by `≤` on the
key together with key-distinctness gives strict pairwise `<` on keys. -/
theorem pairwise_keyLt_of_sorted_nodup (s : List (String × Bytes))
    (hs : List.Sorted (fun p q : String × Bytes => p.1 ≤ q.1) s)
    (hn : (s.map Prod.fst).Nodup) :
    List.Pairwise (fun p q : String × Bytes => p.1 < q.1) s := by
  have hne : List.Pairwise (fun p q : String × Bytes => p.1 ≠ q.1) s :=
    (List.pairwise_map).1 hn
  exact (hs.and hne).imp (fun h => lt_of_le_of_ne h.1 h.2)

/-- Sorting by name depends only on the multiset of `(name, contents)`
pairs, provided the filenames are distinct. -/
theorem sortByName_eq_of_perm (l l2 : List (String × Bytes)) (hp : l.Perm l2)
    (hn : (l.map Prod.fst).Nodup) : sortByName l = sortByName l2 := by
  have h1 : List.Sorted (fun p q : String × Bytes => p.1 ≤ q.1) (sortByName l) :=
    List.sorted_insertionSort _ l
  have h2 : List.Sorted (fun p q : String × Bytes => p.1 ≤ q.1) (sortByName l2) :=
    List.sorted_insertionSort _ l2
  have p1 : (sortByName l).Perm l := List.perm_insertionSort _ l
  have p2 : (sortByName l2).Perm l2 := List.perm_insertionSort _ l2
  have p12 : (sortByName l).Perm (sortByName l2) := p1.trans (hp.trans p2.symm)
  have hn1 : ((sortByName l).map Prod.fst).Nodup := ((p1.map Prod.fst).nodup_iff).2 hn
  have hn2 : ((sortByName l2).map Prod.fst).Nodup := ((p12.map Prod.fst).nodup_iff).1 hn1
  exact List.eq_of_perm_of_sorted p12
    (pairwise_keyLt_of_sorted_nodup _ h1 hn1)
    (pairwise_keyLt_of_sorted_nodup _ h2 hn2)

/-! ### Concrete fixtures used by counterexamples and witnesses -/

/-- A run that succeeds and writes no output files. -/
def emptyRun : RunResult := { retcode := 0, stdout := "", stderr := "", files := [] }

/-- A run that succeeds and writes two frame files, enumerated out of
order. -/
def twoFrameRun : RunResult :=
  { retcode := 0, stdout := "", stderr := "",
    files := [("0000000002.png", [20, 21]), ("0000000001.png", [10, 11])] }

/-- A run that fails with exit code 1. -/
def failRun : RunResult := { retcode := 1, stdout := "so", stderr := "se", files := [] }

/-- Default configuration: png frames, no local copy, no extra args. -/
def cfg0 : VideoConfig :=
  { encoding_format := "png", copy_locally := false, extra_ffmpeg_args := [] }

/-- Configuration with extra ffmpeg args. -/
def cfgExtra : VideoConfig :=
  { encoding_format := "jpeg", copy_locally := false,
    extra_ffmpeg_args := ["-vf", "scale=4:2"] }

/-- Configuration with `copy_locally` set. -/
def cfgCopy : VideoConfig :=
  { encoding_format := "png", copy_locally := true, extra_ffmpeg_args := [] }

/-- An empty filesystem: no path exists. -/
def fsEmpty : String → Option Bytes := fun _ => none

/-- A filesystem holding one video file at `in.mkv`. -/
def fsOne : String → Option Bytes :=
  fun p => if p = "in.mkv" then some [1, 2, 3] else none

/-- Environment whose decoder always succeeds with no output files. -/
def envEmpty : Env :=
  { tempDir := "/tmp/viddir", tempFile := "/tmp/vidfile",
    decodeFile := fun _ => Except.ok emptyRun,
    decodePipe := fun _ => Except.ok emptyRun }

/-- Environment whose decoder succeeds with two frames on any existing
input and fails with exit code 1 when the input file does not exist. -/
def envTwo : Env :=
  { tempDir := "/tmp/viddir", tempFile := "/tmp/vidfile",
    decodeFile := fun o =>
      match o with
      | some _ => Except.ok twoFrameRun
      | none => Except.ok failRun,
    decodePipe := fun _ => Except.ok twoFrameRun }

/-! ### Claims -/

/-- C1 (corrected; counterexample): with a decoder run that exits with
status zero but writes zero files into the temporary output directory,
`_ffmpeg_decode` returns the empty frame sequence normally — it does not
fail with a consistency error. -/
theorem ffmpeg_decode_empty_dir_counterexample :
    (_ffmpeg_decode cfg0 envEmpty fsEmpty (PyVal.str "video.mkv")).2 = Except.ok [] := by
  rfl

/-- C1 (amended): `_ffmpeg_decode` performs no emptiness check on the
output directory: whenever the decoder run completes with exit status
zero — be it a path invocation (`-i path`) or a stream invocation
(`-i pipe:0`) — the call returns the collected frames in sorted
filename order, the empty sequence when the directory holds zero
entries. -/
theorem ffmpeg_decode_zero_exit_returns_frames :
    ∀ (cfg : VideoConfig) (env : Env) (fs : String → Option Bytes) (p : String)
      (c : Bytes) (r s : RunResult),
      (env.decodeFile (fs p) = Except.ok r → r.retcode = 0 →
        (_ffmpeg_decode cfg env fs (PyVal.str p)).2 =
          Except.ok (collectFrames r.files)) ∧
      (env.decodePipe c = Except.ok s → s.retcode = 0 →
        (_ffmpeg_decode cfg env fs (PyVal.fileObj c)).2 =
          Except.ok (collectFrames s.files)) := by
  intro cfg env fs p c r s
  constructor
  · intro h h0
    simp [_ffmpeg_decode, decodeCore, h, h0]
  · intro h h0
    simp [_ffmpeg_decode, decodeCore, h, h0]

/-- C1 witness: the amended theorem applied at a concrete environment
whose decoder produces two frames, for a path input and for a stream
input. -/
theorem ffmpeg_decode_zero_exit_returns_frames_witness :
    (_ffmpeg_decode cfg0 envTwo fsOne (PyVal.str "in.mkv")).2 =
      Except.ok (collectFrames twoFrameRun.files) ∧
    (_ffmpeg_decode cfg0 envTwo fsOne (PyVal.fileObj [9])).2 =
      Except.ok (collectFrames twoFrameRun.files) := by
  have h := ffmpeg_decode_zero_exit_returns_frames cfg0 envTwo fsOne "in.mkv" [9]
    twoFrameRun twoFrameRun
  exact ⟨h.1 rfl rfl, h.2 rfl rfl⟩

/-- C2 (confirmed): a value that is neither an ndarray, nor a string,
nor a file object reaches the file-object branch of `_ffmpeg_decode`,
where `path_or_fobj.seek(0)` raises `AttributeError` — before
`tempfile.mkdtemp` and before `subprocess.Popen`.  The event trace is
empty: no subprocess is spawned and no temporary resource is acquired. -/
theorem encode_example_unrecognized_value :
    ∀ (cfg : VideoConfig) (env : Env) (fs : String → Option Bytes) (t : Nat),
      encode_example cfg env fs (PyVal.other t) =
        ([], Except.error (PyError.attributeError "seek")) := by
  intro cfg env fs t
  rfl

/-- C6 (confirmed): across every exit path of `_ffmpeg_decode` — normal
return, nonzero decoder exit, spawn error, and the classification error
paths where no directory is created — the temporary output directory is
removed (`shutil.rmtree` in the `finally` block) exactly when it was
created. -/
theorem ffmpeg_decode_tempdir_removed_iff_created :
    ∀ (cfg : VideoConfig) (env : Env) (fs : String → Option Bytes) (v : PyVal),
      (Event.mkdtempE env.tempDir ∈ (_ffmpeg_decode cfg env fs v).1 ↔
        Event.rmtreeE env.tempDir ∈ (_ffmpeg_decode cfg env fs v).1) := by
  intro cfg env fs v
  cases v with
  | ndarray a => simp [_ffmpeg_decode]
  | other t => simp [_ffmpeg_decode]
  | str p =>
    have h := decodeCore_trace_mem cfg env ["ffmpeg", "-i", p] none (env.decodeFile (fs p))
    simp only [_ffmpeg_decode]
    exact ⟨fun _ => h.2, fun _ => h.1⟩
  | fileObj c =>
    have h := decodeCore_trace_mem cfg env ["ffmpeg", "-i", "pipe:0"] (some c) (env.decodePipe c)
    simp only [_ffmpeg_decode]
    exact ⟨fun _ => h.2, fun _ => h.1⟩

/-- C8 (confirmed): an in-memory frame array is handed unchanged to the
downstream sequence encoder (`encoded_video = video_or_path_or_fobj`),
with an empty event trace: no subprocess and no temporary resource. -/
theorem encode_example_ndarray_identity :
    ∀ (cfg : VideoConfig) (env : Env) (fs : String → Option Bytes) (a : List Nat),
      encode_example cfg env fs (PyVal.ndarray a) = ([], Except.ok (Encoded.array a)) := by
  intro cfg env fs a
  rfl

/-- The error message decomposes around the joined argument vector. -/
theorem ffmpegErrorMsg_split_args (rc : Int) (args : List String) (out err : String) :
    ffmpegErrorMsg rc args out err =
      ("ffmpeg returned error code " ++ (toString rc ++ ", command=")) ++
        (String.intercalate " " args ++
          ("\nstdout=" ++ (out ++ ("\nstderr=" ++ (err ++ "\n"))))) := by
  simp [ffmpegErrorMsg, String.append_assoc]

/-- The error message decomposes around the captured stdout. -/
theorem ffmpegErrorMsg_split_stdout (rc : Int) (args : List String) (out err : String) :
    ffmpegErrorMsg rc args out err =
      ("ffmpeg returned error code " ++
        (toString rc ++ (", command=" ++ (String.intercalate " " args ++ "\nstdout=")))) ++
        (out ++ ("\nstderr=" ++ (err ++ "\n"))) := by
  simp [ffmpegErrorMsg, String.append_assoc]

/-- The error message decomposes around the captured stderr. -/
theorem ffmpegErrorMsg_split_stderr (rc : Int) (args : List String) (out err : String) :
    ffmpegErrorMsg rc args out err =
      ("ffmpeg returned error code " ++
        (toString rc ++ (", command=" ++
          (String.intercalate " " args ++ ("\nstdout=" ++ (out ++ "\nstderr=")))))) ++
        (err ++ "\n") := by
  simp [ffmpegErrorMsg, String.append_assoc]

/-- The `ValueError` message contains the exit code, the
space-joined argument vector, the captured stdout, and the captured
stderr. -/
theorem ffmpegErrorMsg_contains (rc : Int) (args : List String) (out err : String) :
    strContains (ffmpegErrorMsg rc args out err) (toString rc) ∧
    strContains (ffmpegErrorMsg rc args out err) (String.intercalate " " args) ∧
    strContains (ffmpegErrorMsg rc args out err) out ∧
    strContains (ffmpegErrorMsg rc args out err) err := by
  refine ⟨⟨"ffmpeg returned error code ", _, rfl⟩, ⟨_, _, ffmpegErrorMsg_split_args rc args out err⟩, ⟨_, _, ffmpegErrorMsg_split_stdout rc args out err⟩, ⟨_, _, ffmpegErrorMsg_split_stderr rc args out err⟩⟩

/-- C4 (confirmed): for every completed decoder run, the invocation
check of `_ffmpeg_decode` (`if ffmpeg_ret_code: raise ValueError(...)`)
raises an error exactly when the exit status is nonzero, and the message
of the raised `ValueError` carries the exit code, the argument vector
joined with spaces, the captured stdout and the captured stderr. -/
theorem decodeCore_raises_iff_nonzero :
    ∀ (cfg : VideoConfig) (env : Env) (args0 : List String) (stdin : Option Bytes)
      (r : RunResult),
      ((∃ e, (decodeCore cfg env args0 stdin (Except.ok r)).2 = Except.error e) ↔
        r.retcode ≠ 0) ∧
      (r.retcode ≠ 0 →
        (decodeCore cfg env args0 stdin (Except.ok r)).2 =
          Except.error (PyError.valueError
            (ffmpegErrorMsg r.retcode (fullArgs cfg env args0) r.stdout r.stderr))) ∧
      (strContains (ffmpegErrorMsg r.retcode (fullArgs cfg env args0) r.stdout r.stderr)
          (toString r.retcode) ∧
        strContains (ffmpegErrorMsg r.retcode (fullArgs cfg env args0) r.stdout r.stderr)
          (String.intercalate " " (fullArgs cfg env args0)) ∧
        strContains (ffmpegErrorMsg r.retcode (fullArgs cfg env args0) r.stdout r.stderr)
          r.stdout ∧
        strContains (ffmpegErrorMsg r.retcode (fullArgs cfg env args0) r.stdout r.stderr)
          r.stderr) := by
  intro cfg env args0 stdin r
  refine ⟨?_, ?_, ffmpegErrorMsg_contains r.retcode (fullArgs cfg env args0) r.stdout r.stderr⟩
  · by_cases h : r.retcode = 0 <;> simp [decodeCore, h]
  · intro h
    simp [decodeCore, h]

/-- C4 witness: the check applied to a concrete failing run and to the
shape of its message. -/
theorem decodeCore_raises_iff_nonzero_witness :
    (decodeCore cfg0 envTwo ["ffmpeg", "-i", "in.mkv"] none (Except.ok failRun)).2 =
      Except.error (PyError.valueError
        (ffmpegErrorMsg failRun.retcode (fullArgs cfg0 envTwo ["ffmpeg", "-i", "in.mkv"])
          failRun.stdout failRun.stderr)) :=
  ((decodeCore_raises_iff_nonzero cfg0 envTwo ["ffmpeg", "-i", "in.mkv"] none failRun).2.1
    (by decide))

/-- C5 (confirmed): the decoder argument vector is exactly
`[ffmpeg, -i, source, extra args…, output pattern]`, with the literal
path as source for path inputs and `pipe:0` for stream inputs, and the
output pattern `tempDir/%010d.format` — provided, as `tempfile.mkdtemp`
guarantees, the temporary directory name is nonempty without a trailing
slash. -/
theorem ffmpeg_decode_argv_exact :
    ∀ (cfg : VideoConfig) (env : Env) (fs : String → Option Bytes) (p : String)
      (c : Bytes),
      env.tempDir ≠ "" → endsWithSlash env.tempDir = false →
      popenArgvs (_ffmpeg_decode cfg env fs (PyVal.str p)).1 =
        [["ffmpeg", "-i", p] ++ cfg.extra_ffmpeg_args ++
          [env.tempDir ++ "/" ++ ("%010d." ++ cfg.encoding_format)]] ∧
      popenArgvs (_ffmpeg_decode cfg env fs (PyVal.fileObj c)).1 =
        [["ffmpeg", "-i", "pipe:0"] ++ cfg.extra_ffmpeg_args ++
          [env.tempDir ++ "/" ++ ("%010d." ++ cfg.encoding_format)]] := by
  intro cfg env fs p c h1 h2
  constructor
  · rw [show _ffmpeg_decode cfg env fs (PyVal.str p) =
      decodeCore cfg env ["ffmpeg", "-i", p] none (env.decodeFile (fs p)) from rfl]
    rw [popenArgvs_decodeCore]
    simp [fullArgs, ospathJoin_pattern env.tempDir cfg.encoding_format h1 h2]
  · rw [show _ffmpeg_decode cfg env fs (PyVal.fileObj c) =
      decodeCore cfg env ["ffmpeg", "-i", "pipe:0"] (some c) (env.decodePipe c) from rfl]
    rw [popenArgvs_decodeCore]
    simp [fullArgs, ospathJoin_pattern env.tempDir cfg.encoding_format h1 h2]

/-- C5 witness: the exact argument vectors at a concrete configuration
with extra decoder arguments. -/
theorem ffmpeg_decode_argv_exact_witness :
    envTwo.tempDir ≠ "" ∧ endsWithSlash envTwo.tempDir = false ∧
    (popenArgvs (_ffmpeg_decode cfgExtra envTwo fsOne (PyVal.str "in.mkv")).1 =
        [["ffmpeg", "-i", "in.mkv"] ++ cfgExtra.extra_ffmpeg_args ++
          [envTwo.tempDir ++ "/" ++ ("%010d." ++ cfgExtra.encoding_format)]] ∧
      popenArgvs (_ffmpeg_decode cfgExtra envTwo fsOne (PyVal.fileObj [9])).1 =
        [["ffmpeg", "-i", "pipe:0"] ++ cfgExtra.extra_ffmpeg_args ++
          [envTwo.tempDir ++ "/" ++ ("%010d." ++ cfgExtra.encoding_format)]]) :=
  ⟨by decide, by decide,
    ffmpeg_decode_argv_exact cfgExtra envTwo fsOne "in.mkv" [9] (by decide) (by decide)⟩

/-- C3 (corrected; counterexample): with `copy_locally` set and a source
path that cannot be copied (`tf.gfile.Copy` raises and creates no
destination file), the error `encode_example` reports to the caller is
the `finally` block's `os.unlink` failure on the never-created temporary
file — not the original copy error about the source path.  The two
errors are distinct. -/
theorem encode_example_copy_error_masked_counterexample :
    (encode_example cfgCopy envEmpty fsEmpty (PyVal.str "remote/video.mkv")).2 =
      Except.error (PyError.notFoundError "/tmp/vidfile") ∧
    PyError.notFoundError "/tmp/vidfile" ≠ PyError.notFoundError "remote/video.mkv" := by
  exact ⟨rfl, by decide⟩

/-- C3 (amended): for every local-copy decode, removal of the temporary
file is attempted (`os.unlink` in the `finally` block) on success and on
failure alike; but when the copy step fails before the temporary file is
created, the unlink itself fails and — per Python `finally` semantics —
its file-not-found error replaces the copy error as the error reported
to the caller. -/
theorem encode_example_unlink_attempted_and_masking :
    ∀ (cfg : VideoConfig) (env : Env) (fs : String → Option Bytes) (p : String),
      cfg.copy_locally = true →
      (Event.unlinkE env.tempFile ∈ (encode_example cfg env fs (PyVal.str p)).1 ∧
       (fs p = none → (fs env.tempFile).isSome = false →
         (encode_example cfg env fs (PyVal.str p)).2 =
           Except.error (PyError.notFoundError env.tempFile))) := by
  intro cfg env fs p hcopy
  constructor
  · cases h : fs p <;> simp [encode_example, hcopy, h]
  · intro h1 h2
    simp [encode_example, hcopy, h1, h2]

/-- C3 witness: the amended theorem applied at a concrete environment
whose filesystem is empty. -/
theorem encode_example_unlink_attempted_and_masking_witness :
    Event.unlinkE envEmpty.tempFile ∈
      (encode_example cfgCopy envEmpty fsEmpty (PyVal.str "src.mkv")).1 ∧
    (encode_example cfgCopy envEmpty fsEmpty (PyVal.str "src.mkv")).2 =
      Except.error (PyError.notFoundError envEmpty.tempFile) := by
  have h := encode_example_unlink_attempted_and_masking cfgCopy envEmpty fsEmpty "src.mkv" rfl
  exact ⟨h.1, h.2 rfl rfl⟩

/-- C7 (confirmed): the frame sequence is the files' contents in
ascending lexicographic filename order: the sorted listing's filenames
are sorted under string `≤`, the sorted listing is a permutation of the
raw listing, the result is invariant under any permutation of the
enumeration order (filenames being distinct, as in a directory), and the
successful `_ffmpeg_decode` result is exactly `collectFrames` of the
decoder's output listing. -/
theorem collectFrames_sorted_and_order_independent :
    ∀ (l l2 : List (String × Bytes)), l.Perm l2 → (l.map Prod.fst).Nodup →
      (collectFrames l = collectFrames l2 ∧
       List.Sorted (fun a b : String => a ≤ b) ((sortByName l).map Prod.fst) ∧
       (sortByName l).Perm l ∧
       (∀ (cfg : VideoConfig) (env : Env) (fs : String → Option Bytes) (p : String)
          (r : RunResult),
          env.decodeFile (fs p) = Except.ok r → r.retcode = 0 → r.files = l →
          (_ffmpeg_decode cfg env fs (PyVal.str p)).2 = Except.ok (collectFrames l))) := by
  intro l l2 hp hn
  refine ⟨?_, ?_, List.perm_insertionSort _ l, ?_⟩
  · unfold collectFrames
    rw [sortByName_eq_of_perm l l2 hp hn]
  · have hs : List.Sorted (fun p q : String × Bytes => p.1 ≤ q.1) (sortByName l) :=
      List.sorted_insertionSort _ l
    exact (List.pairwise_map).2 hs
  · intro cfg env fs p r h h0 hf
    simp [_ffmpeg_decode, decodeCore, h, h0, hf]

/-- The decoder's two-frame output listing, enumerated out of filename
order. -/
def listingA : List (String × Bytes) :=
  [("0000000002.png", [20, 21]), ("0000000001.png", [10, 11])]

/-- The same listing enumerated in the opposite order. -/
def listingB : List (String × Bytes) :=
  [("0000000001.png", [10, 11]), ("0000000002.png", [20, 21])]

/-- C7 witness: the theorem applied to a concrete two-file listing and
its reversal. -/
theorem collectFrames_sorted_and_order_independent_witness :
    collectFrames listingA = collectFrames listingB ∧
    List.Sorted (fun a b : String => a ≤ b) ((sortByName listingA).map Prod.fst) ∧
    (sortByName listingA).Perm listingA ∧
    (_ffmpeg_decode cfg0 envTwo fsOne (PyVal.str "in.mkv")).2 =
      Except.ok (collectFrames listingA) := by
  have h := collectFrames_sorted_and_order_independent listingA listingB
    (by decide) (by decide)
  exact ⟨h.1, h.2.1, h.2.2.1, h.2.2.2 cfg0 envTwo fsOne "in.mkv" twoFrameRun rfl rfl rfl⟩

/-- C9 (confirmed): for a path input whose file exists, enabling
`copy_locally` is transparent: the decoder reads the local copy, whose
contents equal the original file's contents, so whenever the decoder run
succeeds both settings hand the identical frame sequence to the
downstream encoder.  (On decoder failure both raise the same
`ValueError` class; its diagnostic message names the file the decoder
read, which is the only difference between the settings.) -/
theorem encode_example_copy_locally_transparent :
    ∀ (cfg : VideoConfig) (env : Env) (fs : String → Option Bytes) (p : String)
      (b : Bytes),
      fs p = some b →
      ∀ r : RunResult, env.decodeFile (some b) = Except.ok r → r.retcode = 0 →
        ((encode_example { cfg with copy_locally := true } env fs (PyVal.str p)).2 =
            Except.ok (Encoded.frames (collectFrames r.files)) ∧
          (encode_example { cfg with copy_locally := false } env fs (PyVal.str p)).2 =
            Except.ok (Encoded.frames (collectFrames r.files))) := by
  intro cfg env fs p b h r hr h0
  constructor
  · simp [encode_example, h, _ffmpeg_decode, decodeCore, hr, h0, Except.map]
  · simp [encode_example, h, _ffmpeg_decode, decodeCore, hr, h0, Except.map]

/-- C9 witness: both settings produce the identical two-frame output on
a concrete existing file. -/
theorem encode_example_copy_locally_transparent_witness :
    (encode_example { cfg0 with copy_locally := true } envTwo fsOne
        (PyVal.str "in.mkv")).2 =
      Except.ok (Encoded.frames (collectFrames twoFrameRun.files)) ∧
    (encode_example { cfg0 with copy_locally := false } envTwo fsOne
        (PyVal.str "in.mkv")).2 =
      Except.ok (Encoded.frames (collectFrames twoFrameRun.files)) :=
  encode_example_copy_locally_transparent cfg0 envTwo fsOne "in.mkv" [1, 2, 3]
    rfl twoFrameRun rfl rfl

/-- C10 (confirmed): a string input with `copy_locally` disabled is
passed verbatim to the decoder as the `-i` argument, with no existence
or readability check: the subprocess is spawned even for a nonexistent
path, and when the decoder then exits nonzero the caller sees the
`ValueError` decode error carrying the exit status — never an
`AttributeError` classification error. -/
theorem encode_example_missing_path_surfaces_decode_error :
    ∀ (cfg : VideoConfig) (env : Env) (fs : String → Option Bytes) (p : String)
      (r : RunResult),
      cfg.copy_locally = false → fs p = none →
      env.decodeFile none = Except.ok r → r.retcode ≠ 0 →
      (popenArgvs (encode_example cfg env fs (PyVal.str p)).1 =
        [fullArgs cfg env ["ffmpeg", "-i", p]] ∧
       (encode_example cfg env fs (PyVal.str p)).2 =
         Except.error (PyError.valueError
           (ffmpegErrorMsg r.retcode (fullArgs cfg env ["ffmpeg", "-i", p])
             r.stdout r.stderr)) ∧
       (∀ a, (encode_example cfg env fs (PyVal.str p)).2 ≠
         Except.error (PyError.attributeError a))) := by
  intro cfg env fs p r hc hf hrun hrc
  refine ⟨?_, ?_, ?_⟩
  · simp [encode_example, hc, _ffmpeg_decode, hf, popenArgvs_decodeCore]
  · simp [encode_example, hc, _ffmpeg_decode, hf, hrun, decodeCore, hrc, Except.map]
  · intro a
    simp [encode_example, hc, _ffmpeg_decode, hf, hrun, decodeCore, hrc, Except.map]

/-- C10 witness: a nonexistent path spawns the decoder and surfaces its
exit-code-1 failure as a decode `ValueError`. -/
theorem encode_example_missing_path_surfaces_decode_error_witness :
    popenArgvs (encode_example cfg0 envTwo fsEmpty (PyVal.str "missing.mkv")).1 =
      [fullArgs cfg0 envTwo ["ffmpeg", "-i", "missing.mkv"]] ∧
    (encode_example cfg0 envTwo fsEmpty (PyVal.str "missing.mkv")).2 =
      Except.error (PyError.valueError
        (ffmpegErrorMsg failRun.retcode (fullArgs cfg0 envTwo ["ffmpeg", "-i", "missing.mkv"])
          failRun.stdout failRun.stderr)) ∧
    (encode_example cfg0 envTwo fsEmpty (PyVal.str "missing.mkv")).2 ≠
      Except.error (PyError.attributeError "seek") := by
  have h := encode_example_missing_path_surfaces_decode_error cfg0 envTwo fsEmpty
    "missing.mkv" failRun rfl rfl rfl (by decide)
  exact ⟨h.1, h.2.1, h.2.2 "seek"⟩
